import Mathlib

/-!
Verification of the network speed measurement and quality-scoring engine of
the nomad-cli repository (src/speedtest.go) and of its spinner/async
execution harness (the `Spinner` / `WithSpinner` file).

Modelling conventions:
* Go `time.Duration` is an `Int` counting nanoseconds; `Duration.Milliseconds()`
  is truncating (toward-zero) division by 1,000,000, i.e. `Int.tdiv`.
* Go `float64` speeds (Mbps) are modelled as `ℚ`; all comparisons the code
  performs on them are against small integer constants, where float64 and ℚ
  order agree exactly.
* `int64(math.Sqrt(float64(v)/float64(n)))` for `0 ≤ v` is modelled as
  `Nat.sqrt (v.toNat / n)`: for a nonnegative integer radicand,
  `⌊√(v/n)⌋ = ⌊√⌊v/n⌋⌋` because perfect squares are integers, so the integer
  model agrees with the exactly-rounded float computation.
* The effectful `RunSpeedTest` is embedded as a pure function over an
  environment recording the outcome of each external call, together with a
  trace of the phases that were actually executed.
-/

namespace NomadCli

/-- Record `SpeedTestResult` from src/speedtest.go: latency and jitter are Go
`time.Duration` values (nanoseconds), speeds are Mbps. -/
structure SpeedTestResult where
  latency : Int
  jitter : Int
  downloadSpeed : ℚ
  uploadSpeed : ℚ
  serverName : String
  serverCountry : String
deriving DecidableEq

/-- Record `NetworkQuality` from src/speedtest.go: one categorical label per use case. -/
structure NetworkQuality where
  streaming : String
  gaming : String
  webchat : String
deriving DecidableEq

/-- Go `time.Duration.Milliseconds()`: truncating division of the nanosecond
count by 1e6 (Go integer division truncates toward zero). -/
def durationMilliseconds (d : Int) : Int := d.tdiv 1000000

/-- Function `calculateStreamingScore` from src/speedtest.go, lines 156-196: the four
`if/else if` chains (download, latency, jitter, upload) accumulated into
`score`. -/
def calculateStreamingScore (result : SpeedTestResult) : Int :=
  (if result.downloadSpeed ≥ 25 then 40
   else if result.downloadSpeed ≥ 10 then 30
   else if result.downloadSpeed ≥ 5 then 20
   else if result.downloadSpeed ≥ 2 then 10
   else 0) +
  (if durationMilliseconds result.latency ≤ 20 then 30
   else if durationMilliseconds result.latency ≤ 50 then 20
   else if durationMilliseconds result.latency ≤ 100 then 10
   else 0) +
  (if durationMilliseconds result.jitter ≤ 5 then 20
   else if durationMilliseconds result.jitter ≤ 15 then 10
   else 0) +
  (if result.uploadSpeed ≥ 5 then 10
   else if result.uploadSpeed ≥ 2 then 5
   else 0)

/-- Function `calculateGamingScore` from src/speedtest.go, lines 199-241. -/
def calculateGamingScore (result : SpeedTestResult) : Int :=
  (if durationMilliseconds result.latency ≤ 10 then 40
   else if durationMilliseconds result.latency ≤ 20 then 30
   else if durationMilliseconds result.latency ≤ 50 then 20
   else if durationMilliseconds result.latency ≤ 100 then 10
   else 0) +
  (if durationMilliseconds result.jitter ≤ 2 then 30
   else if durationMilliseconds result.jitter ≤ 5 then 20
   else if durationMilliseconds result.jitter ≤ 10 then 10
   else 0) +
  (if result.downloadSpeed ≥ 10 then 20
   else if result.downloadSpeed ≥ 5 then 15
   else if result.downloadSpeed ≥ 2 then 10
   else 0) +
  (if result.uploadSpeed ≥ 5 then 10
   else if result.uploadSpeed ≥ 2 then 5
   else 0)

/-- Function `calculateWebchatScore` from src/speedtest.go, lines 244-284. -/
def calculateWebchatScore (result : SpeedTestResult) : Int :=
  (if durationMilliseconds result.latency ≤ 20 then 30
   else if durationMilliseconds result.latency ≤ 50 then 20
   else if durationMilliseconds result.latency ≤ 100 then 10
   else 0) +
  (if durationMilliseconds result.jitter ≤ 5 then 25
   else if durationMilliseconds result.jitter ≤ 15 then 15
   else if durationMilliseconds result.jitter ≤ 30 then 5
   else 0) +
  (if result.uploadSpeed ≥ 5 then 25
   else if result.uploadSpeed ≥ 2 then 15
   else if result.uploadSpeed ≥ 1 then 10
   else 0) +
  (if result.downloadSpeed ≥ 5 then 20
   else if result.downloadSpeed ≥ 2 then 10
   else 0)

/-- Function `getQualityLabel` from src/speedtest.go, lines 287-300. -/
def getQualityLabel (score : Int) : String :=
  if score ≥ 80 then "Great"
  else if score ≥ 60 then "Good"
  else if score ≥ 40 then "Average"
  else if score ≥ 20 then "Poor"
  else "Bad"

/-- Function `calculateNetworkQuality` from src/speedtest.go, lines 137-153. -/
def calculateNetworkQuality (result : SpeedTestResult) : NetworkQuality :=
  { streaming := getQualityLabel (calculateStreamingScore result)
    gaming := getQualityLabel (calculateGamingScore result)
    webchat := getQualityLabel (calculateWebchatScore result) }

/-- The concrete input of spec section 8: download 30 Mbps, upload 10 Mbps,
latency 15 ms, jitter 3 ms (durations in nanoseconds). -/
def specExampleResult : SpeedTestResult :=
  { latency := 15000000
    jitter := 3000000
    downloadSpeed := 30
    uploadSpeed := 10
    serverName := ""
    serverCountry := "" }

/-! ### Spec-side table-driven scoring (spec section 4.2)

The spec describes each contribution as a first-match-wins top-down scan of a
descending threshold table.  `firstMatchGe` scans a table of
(threshold, points) pairs for throughput metrics ("at least threshold"),
`firstMatchLe` for time metrics ("at most threshold"); both default to 0. -/

/-- First-match-wins scan for "metric ≥ threshold" tables (spec wording). -/
def firstMatchGe (x : ℚ) : List (ℚ × Int) → Int
  | [] => 0
  | (t, p) :: rest => if x ≥ t then p else firstMatchGe x rest

/-- First-match-wins scan for "metric ≤ threshold" tables (spec wording). -/
def firstMatchLe (x : Int) : List (Int × Int) → Int
  | [] => 0
  | (t, p) :: rest => if x ≤ t then p else firstMatchLe x rest

/-- Streaming score as the spec's section 4.2 table describes it. -/
def streamingScoreSpec (result : SpeedTestResult) : Int :=
  firstMatchGe result.downloadSpeed [(25, 40), (10, 30), (5, 20), (2, 10)] +
  firstMatchLe (durationMilliseconds result.latency) [(20, 30), (50, 20), (100, 10)] +
  firstMatchLe (durationMilliseconds result.jitter) [(5, 20), (15, 10)] +
  firstMatchGe result.uploadSpeed [(5, 10), (2, 5)]

/-- Gaming score as the spec's section 4.2 table describes it. -/
def gamingScoreSpec (result : SpeedTestResult) : Int :=
  firstMatchLe (durationMilliseconds result.latency) [(10, 40), (20, 30), (50, 20), (100, 10)] +
  firstMatchLe (durationMilliseconds result.jitter) [(2, 30), (5, 20), (10, 10)] +
  firstMatchGe result.downloadSpeed [(10, 20), (5, 15), (2, 10)] +
  firstMatchGe result.uploadSpeed [(5, 10), (2, 5)]

/-- Webchat/RTC score as the spec's section 4.2 table describes it. -/
def webchatScoreSpec (result : SpeedTestResult) : Int :=
  firstMatchLe (durationMilliseconds result.latency) [(20, 30), (50, 20), (100, 10)] +
  firstMatchLe (durationMilliseconds result.jitter) [(5, 25), (15, 15), (30, 5)] +
  firstMatchGe result.uploadSpeed [(5, 25), (2, 15), (1, 10)] +
  firstMatchGe result.downloadSpeed [(5, 20), (2, 10)]

lemma calculateStreamingScore_eq_spec (r : SpeedTestResult) :
    calculateStreamingScore r = streamingScoreSpec r := by
  simp only [calculateStreamingScore, streamingScoreSpec, firstMatchGe, firstMatchLe]

lemma calculateGamingScore_eq_spec (r : SpeedTestResult) :
    calculateGamingScore r = gamingScoreSpec r := by
  simp only [calculateGamingScore, gamingScoreSpec, firstMatchGe, firstMatchLe]

lemma calculateWebchatScore_eq_spec (r : SpeedTestResult) :
    calculateWebchatScore r = webchatScoreSpec r := by
  simp only [calculateWebchatScore, webchatScoreSpec, firstMatchGe, firstMatchLe]

/-! ### Helper lemmas about the table scans and truncating division -/

lemma firstMatchGe_nonneg (x : ℚ) (l : List (ℚ × Int)) (h : ∀ q ∈ l, 0 ≤ q.2) :
    0 ≤ firstMatchGe x l := by
  induction l with
  | nil => simp [firstMatchGe]
  | cons a rest ih =>
    simp only [firstMatchGe]
    split
    · exact h a (by simp)
    · exact ih fun q hq => h q (by simp [hq])

lemma firstMatchGe_le_bound (x : ℚ) (l : List (ℚ × Int)) (b : Int) (hb : 0 ≤ b)
    (h : ∀ q ∈ l, q.2 ≤ b) : firstMatchGe x l ≤ b := by
  induction l with
  | nil => simpa [firstMatchGe] using hb
  | cons a rest ih =>
    simp only [firstMatchGe]
    split
    · exact h a (by simp)
    · exact ih fun q hq => h q (by simp [hq])

lemma firstMatchLe_nonneg (x : Int) (l : List (Int × Int)) (h : ∀ q ∈ l, 0 ≤ q.2) :
    0 ≤ firstMatchLe x l := by
  induction l with
  | nil => simp [firstMatchLe]
  | cons a rest ih =>
    simp only [firstMatchLe]
    split
    · exact h a (by simp)
    · exact ih fun q hq => h q (by simp [hq])

lemma firstMatchLe_le_bound (x : Int) (l : List (Int × Int)) (b : Int) (hb : 0 ≤ b)
    (h : ∀ q ∈ l, q.2 ≤ b) : firstMatchLe x l ≤ b := by
  induction l with
  | nil => simpa [firstMatchLe] using hb
  | cons a rest ih =>
    simp only [firstMatchLe]
    split
    · exact h a (by simp)
    · exact ih fun q hq => h q (by simp [hq])

/-- A first-match-wins "≥ threshold" scan with descending nonnegative point
values is monotone in the metric. -/
lemma firstMatchGe_mono (l : List (ℚ × Int)) (hl : l.Pairwise fun a b => b.2 ≤ a.2)
    (h0 : ∀ q ∈ l, 0 ≤ q.2) {x y : ℚ} (hxy : x ≤ y) :
    firstMatchGe x l ≤ firstMatchGe y l := by
  induction l with
  | nil => simp [firstMatchGe]
  | cons a rest ih =>
    simp only [firstMatchGe]
    rcases le_or_lt a.1 x with hx | hx
    · rw [if_pos hx, if_pos (le_trans hx hxy)]
    · rw [if_neg (not_le.mpr hx)]
      split
      · exact firstMatchGe_le_bound x rest a.2 (h0 a (by simp))
          fun q hq => (List.pairwise_cons.mp hl).1 q hq
      · exact ih (List.pairwise_cons.mp hl).2 (fun q hq => h0 q (by simp [hq]))

/-- A first-match-wins "≤ threshold" scan with descending nonnegative point
values is antitone in the metric. -/
lemma firstMatchLe_anti (l : List (Int × Int)) (hl : l.Pairwise fun a b => b.2 ≤ a.2)
    (h0 : ∀ q ∈ l, 0 ≤ q.2) {x y : Int} (hxy : x ≤ y) :
    firstMatchLe y l ≤ firstMatchLe x l := by
  induction l with
  | nil => simp [firstMatchLe]
  | cons a rest ih =>
    simp only [firstMatchLe]
    rcases le_or_lt y a.1 with hy | hy
    · rw [if_pos hy, if_pos (le_trans hxy hy)]
    · rw [if_neg (not_le.mpr hy)]
      split
      · exact firstMatchLe_le_bound y rest a.2 (h0 a (by simp))
          fun q hq => (List.pairwise_cons.mp hl).1 q hq
      · exact ih (List.pairwise_cons.mp hl).2 (fun q hq => h0 q (by simp [hq]))

/-- Go's truncating integer division by a positive constant is monotone. -/
lemma Int_tdiv_le_tdiv {a b c : Int} (hc : 0 < c) (hab : a ≤ b) :
    a.tdiv c ≤ b.tdiv c := by
  rcases le_or_lt 0 a with ha | ha
  · rw [Int.tdiv_eq_ediv ha hc.le, Int.tdiv_eq_ediv (le_trans ha hab) hc.le]
    exact Int.ediv_le_ediv hc hab
  · rcases le_or_lt 0 b with hb | hb
    · calc a.tdiv c ≤ 0 := by
            have h1 : (0 : Int) ≤ (-a).tdiv c := Int.tdiv_nonneg (by omega) hc.le
            have h2 : (-a).tdiv c = -(a.tdiv c) := Int.neg_tdiv a c
            omega
        _ ≤ b.tdiv c := Int.tdiv_nonneg hb hc.le
    · have h1 : (-b).tdiv c ≤ (-a).tdiv c := by
        rw [Int.tdiv_eq_ediv (by omega) hc.le, Int.tdiv_eq_ediv (by omega) hc.le]
        exact Int.ediv_le_ediv hc (by omega)
      have h2 : (-a).tdiv c = -(a.tdiv c) := Int.neg_tdiv a c
      have h3 : (-b).tdiv c = -(b.tdiv c) := Int.neg_tdiv b c
      omega

lemma durationMilliseconds_mono {a b : Int} (hab : a ≤ b) :
    durationMilliseconds a ≤ durationMilliseconds b :=
  Int_tdiv_le_tdiv (by norm_num) hab

/-! ### The latency/jitter phase of `RunSpeedTest` (src/speedtest.go, lines 59-100)

`server.TCPPing` returns a list of raw `int64` latency samples; the closure
then computes the truncating-integer mean, picks a time unit by the magnitude
heuristic, and computes the jitter as
`int64(math.Sqrt(float64(variance)/float64(len)))` where `variance` is the
accumulated sum of squared deviations from the mean. -/

/-- The external speedtest server (the fields of `speedtest.Server` that
src/speedtest.go reads or writes): durations in nanoseconds, speeds in Mbps. -/
structure Server where
  name : String
  country : String
  latency : Int
  jitter : Int
  dlSpeed : ℚ
  ulSpeed : ℚ
deriving DecidableEq

/-- The mean `avgLatency := sum / int64(len(latencies))` (truncating division),
src/speedtest.go line 74. -/
def avgLatencyOf (latencies : List Int) : Int :=
  latencies.sum.tdiv latencies.length

/-- The accumulated `variance` variable of src/speedtest.go lines 84-88:
the sum of squared deviations from the truncated mean. -/
def varianceOf (latencies : List Int) : Int :=
  (latencies.map fun lat => (lat - avgLatencyOf latencies) ^ 2).sum

/-- The value `jitterValue := int64(math.Sqrt(float64(variance) / float64(len)))`,
src/speedtest.go line 89, modelled exactly for a nonnegative integer radicand
(see the header comment). -/
def jitterValueOf (latencies : List Int) : Int :=
  (Nat.sqrt ((varianceOf latencies).toNat / latencies.length) : Int)

/-- The body of the latency-phase closure (src/speedtest.go lines 68-97):
when at least one sample came back, store the mean and jitter on the server,
as nanoseconds when the raw mean exceeds 1,000,000 and as microseconds
(×1000 ns) otherwise; with no samples the server is left untouched. -/
def latencyPhase (latencies : List Int) (server : Server) : Server :=
  if 0 < latencies.length then
    let avgLatency := avgLatencyOf latencies
    let jitterValue := jitterValueOf latencies
    let server := if avgLatency > 1000000 then
        { server with latency := avgLatency }
      else
        { server with latency := avgLatency * 1000 }
    if avgLatency > 1000000 then
      { server with jitter := jitterValue }
    else
      { server with jitter := jitterValue * 1000 }
  else
    server

/-! ### `RunSpeedTest` (src/speedtest.go, lines 30-134)

The external calls (`speedtest.FetchServers`, `servers.FindServer`,
`server.TCPPing`, `server.DownloadTest`, `server.UploadTest`) are modelled by
an environment recording each call's outcome.  `runSpeedTest` additionally
returns the list of phases it actually started, in order, so that "remaining
phases are not executed" is expressible. -/

/-- The sequential phases of `RunSpeedTest`. -/
inductive Phase where
  | fetchServers
  | findServer
  | latencyTest
  | downloadTest
  | uploadTest
deriving DecidableEq

/-- Outcomes of the external calls `RunSpeedTest` makes, in program order.
A `.ok` download/upload outcome carries the measured Mbps rate that the call
stores on the server (`server.DLSpeed` / `server.ULSpeed`). -/
structure Env where
  fetchServers : Except String Unit
  findServer : Except String (List Server)
  tcpPing : Except String (List Int)
  downloadTest : Except String ℚ
  uploadTest : Except String ℚ

/-- What `RunSpeedTest` produced: the three Go return values (`*SpeedTestResult`,
`*NetworkQuality`, `error`) plus the trace of phases that were started. -/
structure RunOutcome where
  result : Option SpeedTestResult
  quality : Option NetworkQuality
  err : Option String
  executed : List Phase
deriving DecidableEq

/-- Function `RunSpeedTest` from src/speedtest.go lines 30-134, with each external call
replaced by its recorded outcome.  Every early `return nil, nil, err` of the
source is a `result := none, quality := none` outcome here, and the phase
trace stops at the failing phase. -/
def runSpeedTest (env : Env) : RunOutcome :=
  match env.fetchServers with
  | .error e =>
    { result := none, quality := none
      err := some ("failed to fetch server list: " ++ e)
      executed := [Phase.fetchServers] }
  | .ok _ =>
    match env.findServer with
    | .error e =>
      { result := none, quality := none
        err := some ("failed to find servers: " ++ e)
        executed := [Phase.fetchServers, Phase.findServer] }
    | .ok [] =>
      { result := none, quality := none
        err := some "no servers found"
        executed := [Phase.fetchServers, Phase.findServer] }
    | .ok (server :: _) =>
      match env.tcpPing with
      | .error e =>
        { result := none, quality := none
          err := some ("latency test failed: " ++ e)
          executed := [Phase.fetchServers, Phase.findServer, Phase.latencyTest] }
      | .ok latencies =>
        let server := latencyPhase latencies server
        match env.downloadTest with
        | .error e =>
          { result := none, quality := none
            err := some ("download test failed: " ++ e)
            executed := [Phase.fetchServers, Phase.findServer, Phase.latencyTest,
              Phase.downloadTest] }
        | .ok dl =>
          let server := { server with dlSpeed := dl }
          match env.uploadTest with
          | .error e =>
            { result := none, quality := none
              err := some ("upload test failed: " ++ e)
              executed := [Phase.fetchServers, Phase.findServer, Phase.latencyTest,
                Phase.downloadTest, Phase.uploadTest] }
          | .ok ul =>
            let server := { server with ulSpeed := ul }
            let result : SpeedTestResult :=
              { latency := server.latency
                jitter := server.jitter
                downloadSpeed := server.dlSpeed
                uploadSpeed := server.ulSpeed
                serverName := server.name
                serverCountry := server.country }
            { result := some result
              quality := some (calculateNetworkQuality result)
              err := none
              executed := [Phase.fetchServers, Phase.findServer, Phase.latencyTest,
                Phase.downloadTest, Phase.uploadTest] }

/-! ### The spinner harness `WithSpinner` (src/unnamed/part_002)

`WithSpinner` starts a render goroutine (`Spinner.Start`), runs the action in
a second goroutine that sends its result on the buffered channel `errChan`,
receives that result, calls `Spinner.Stop` (a rendezvous on the unbuffered
`stop` channel, then on `done`, then printing `"\r\x1b[K"` to clear the
line), and returns the action's error.

The claim concerns the exit paths on which the call returns, i.e. the runs
with no interrupt signal, so the model has three threads — the render loop,
the action worker, and the main body of `WithSpinner` — interleaved by a
small-step relation that also records the terminal-visible events: a spinner
frame being printed, the clear sequence being printed, and the call
returning with its error value.  Channel sends/receives on the unbuffered
`stop`/`done` channels are rendezvous steps that advance both threads at
once; `errChan` has capacity one, so the worker's send never blocks. -/

/-- Terminal-visible events of one `WithSpinner` call: a spinner frame write,
the line-clear write from `Spinner.Stop`, and the call returning an error
value. -/
inductive SpinEv where
  | frame
  | clear
  | ret (err : Option String)
deriving DecidableEq

/-- Program counter of the main body of `WithSpinner`: receiving from
`errChan`, sending on `stop`, receiving from `done`, printing the clear
sequence inside `Spinner.Stop`, returning, returned. -/
inductive MainPc where
  | waitErr
  | sendStop
  | waitDone
  | doClear
  | retn
  | finished
deriving DecidableEq

/-- Program counter of the render goroutine: looping in the `select`, about
to send on `done` after taking the `stop` case, exited. -/
inductive RenderPc where
  | loop
  | sendDone
  | exited
deriving DecidableEq

/-- One `WithSpinner` call's state: both program counters, whether the worker
goroutine has finished the action, the contents of the buffered `errChan`,
and main's local `err` variable once received (`none` = not yet received,
`some e` = received the action result `e`, where `e : Option String` is the
Go `error`, `none` meaning `nil`). -/
structure SpinState where
  mpc : MainPc
  rpc : RenderPc
  workerDone : Bool
  errBuf : Option (Option String)
  errVar : Option (Option String)
deriving DecidableEq

/-- The state right after `WithSpinner` has started the spinner and the
worker goroutine. -/
def spinInit : SpinState :=
  { mpc := .waitErr, rpc := .loop, workerDone := false, errBuf := none, errVar := none }

/-- One interleaving step of the `WithSpinner` system, for an action whose
result is `aerr`.  Each constructor is one atomic step of one thread (or a
channel rendezvous advancing two threads), labelled with the terminal events
it emits. -/
inductive SpinStep (aerr : Option String) : SpinState → List SpinEv → SpinState → Prop where
  | workerSend (s : SpinState) (h : s.workerDone = false) :
      SpinStep aerr s [] { s with workerDone := true, errBuf := some aerr }
  | renderFrame (s : SpinState) (h : s.rpc = .loop) :
      SpinStep aerr s [SpinEv.frame] s
  | recvErr (s : SpinState) (e : Option String) (h : s.mpc = .waitErr)
      (hb : s.errBuf = some e) :
      SpinStep aerr s [] { s with mpc := .sendStop, errBuf := none, errVar := some e }
  | stopRendezvous (s : SpinState) (hm : s.mpc = .sendStop) (hr : s.rpc = .loop) :
      SpinStep aerr s [] { s with mpc := .waitDone, rpc := .sendDone }
  | doneRendezvous (s : SpinState) (hm : s.mpc = .waitDone) (hr : s.rpc = .sendDone) :
      SpinStep aerr s [] { s with mpc := .doClear, rpc := .exited }
  | clearLine (s : SpinState) (h : s.mpc = .doClear) :
      SpinStep aerr s [SpinEv.clear] { s with mpc := .retn }
  | retStep (s : SpinState) (e : Option String) (h : s.mpc = .retn)
      (he : s.errVar = some e) :
      SpinStep aerr s [SpinEv.ret e] { s with mpc := .finished }

/-- Finite executions of the `WithSpinner` system, accumulating the emitted
terminal events in order. -/
inductive SpinRun (aerr : Option String) : SpinState → List SpinEv → SpinState → Prop where
  | refl (s : SpinState) : SpinRun aerr s [] s
  | step {s₁ s₂ s₃ : SpinState} {tr₁ tr₂ : List SpinEv} :
      SpinStep aerr s₁ tr₁ s₂ → SpinRun aerr s₂ tr₂ s₃ → SpinRun aerr s₁ (tr₁ ++ tr₂) s₃

/-- The per-program-counter part of the `WithSpinner` invariant: what the
render goroutine's counter, main's local error variable and the emitted
trace look like at each point of the main body. -/
def mainInv (aerr : Option String) :
    MainPc → RenderPc → Option (Option String) → List SpinEv → Prop
  | .waitErr, rpc, ev, tr =>
      rpc = .loop ∧ ev = none ∧ ∃ k, tr = List.replicate k SpinEv.frame
  | .sendStop, rpc, ev, tr =>
      rpc = .loop ∧ ev = some aerr ∧ ∃ k, tr = List.replicate k SpinEv.frame
  | .waitDone, rpc, ev, tr =>
      rpc = .sendDone ∧ ev = some aerr ∧ ∃ k, tr = List.replicate k SpinEv.frame
  | .doClear, rpc, ev, tr =>
      rpc = .exited ∧ ev = some aerr ∧ ∃ k, tr = List.replicate k SpinEv.frame
  | .retn, rpc, ev, tr =>
      rpc = .exited ∧ ev = some aerr ∧
        ∃ k, tr = List.replicate k SpinEv.frame ++ [SpinEv.clear]
  | .finished, rpc, _, tr =>
      rpc = .exited ∧
        ∃ k, tr = List.replicate k SpinEv.frame ++ [SpinEv.clear, SpinEv.ret aerr]

/-- The inductive invariant of the `WithSpinner` system: couples the two
program counters, the channel contents and the shape of the trace emitted so
far. -/
def spinInv (aerr : Option String) (s : SpinState) (tr : List SpinEv) : Prop :=
  mainInv aerr s.mpc s.rpc s.errVar tr ∧ (s.errBuf = none ∨ s.errBuf = some aerr)

lemma spinInv_init (aerr : Option String) : spinInv aerr spinInit [] :=
  ⟨⟨rfl, rfl, 0, rfl⟩, Or.inl rfl⟩

lemma spinInv_step {aerr : Option String} {s₁ s₂ : SpinState} {tr : List SpinEv}
    {ev : List SpinEv} (hinv : spinInv aerr s₁ tr) (hstep : SpinStep aerr s₁ ev s₂) :
    spinInv aerr s₂ (tr ++ ev) := by
  obtain ⟨hmain, hbuf⟩ := hinv
  cases hstep with
  | workerSend h =>
    exact ⟨by simpa using hmain, Or.inr rfl⟩
  | renderFrame h =>
    refine ⟨?_, hbuf⟩
    rcases hm : s₁.mpc with _ | _ | _ | _ | _ | _ <;>
      rw [hm] at hmain <;> simp only [mainInv] at hmain ⊢ <;>
      rw [h] at hmain <;> [skip; skip; exact absurd hmain.1 (by decide);
        exact absurd hmain.1 (by decide); exact absurd hmain.1 (by decide);
        exact absurd hmain.1 (by decide)] <;>
      exact ⟨h, hmain.2.1, hmain.2.2.elim fun k hk =>
        ⟨k + 1, by rw [hk, List.replicate_succ' k]⟩⟩
  | recvErr e h hb =>
    rw [h] at hmain
    simp only [mainInv] at hmain
    have he : e = aerr := by
      rcases hbuf with hb0 | hb0 <;> rw [hb0] at hb
      · cases hb
      · exact (Option.some_inj.mp hb).symm
    subst he
    exact ⟨by simpa [mainInv] using ⟨hmain.1, hmain.2.2⟩, Or.inl rfl⟩
  | stopRendezvous hm hr =>
    rw [hm] at hmain
    simp only [mainInv] at hmain
    exact ⟨by simpa [mainInv] using ⟨hmain.2.1, hmain.2.2⟩, hbuf⟩
  | doneRendezvous hm hr =>
    rw [hm] at hmain
    simp only [mainInv] at hmain
    exact ⟨by simpa [mainInv] using ⟨hmain.2.1, hmain.2.2⟩, hbuf⟩
  | clearLine h =>
    rw [h] at hmain
    simp only [mainInv] at hmain
    refine ⟨?_, hbuf⟩
    simp only [mainInv]
    obtain ⟨k, hk⟩ := hmain.2.2
    exact ⟨hmain.1, hmain.2.1, k, by rw [hk]⟩
  | retStep e h he =>
    rw [h] at hmain
    simp only [mainInv] at hmain
    have heq : e = aerr := by
      have h2 := hmain.2.1
      rw [he] at h2
      exact Option.some_inj.mp h2
    subst heq
    refine ⟨?_, hbuf⟩
    simp only [mainInv]
    obtain ⟨k, hk⟩ := hmain.2.2
    exact ⟨hmain.1, k, by rw [hk]; simp⟩

lemma spinInv_run {aerr : Option String} {s₁ s₂ : SpinState} {tr₀ tr : List SpinEv}
    (hinv : spinInv aerr s₁ tr₀) (hrun : SpinRun aerr s₁ tr s₂) :
    spinInv aerr s₂ (tr₀ ++ tr) := by
  induction hrun generalizing tr₀ with
  | refl s => simpa using hinv
  | step hstep _ ih =>
    have h2 := spinInv_step hinv hstep
    have h3 := ih h2
    simpa [List.append_assoc] using h3

/-! ### Helper lemmas for monotonicity and range of the three scores -/

lemma streamingScore_mono (r₁ r₂ : SpeedTestResult)
    (hlat : r₁.latency ≤ r₂.latency) (hjit : r₁.jitter ≤ r₂.jitter)
    (hdl : r₂.downloadSpeed ≤ r₁.downloadSpeed) (hul : r₂.uploadSpeed ≤ r₁.uploadSpeed) :
    calculateStreamingScore r₂ ≤ calculateStreamingScore r₁ := by
  rw [calculateStreamingScore_eq_spec, calculateStreamingScore_eq_spec]
  dsimp only [streamingScoreSpec]
  exact add_le_add (add_le_add (add_le_add
    (firstMatchGe_mono _ (by decide) (by decide) hdl)
    (firstMatchLe_anti _ (by decide) (by decide) (durationMilliseconds_mono hlat)))
    (firstMatchLe_anti _ (by decide) (by decide) (durationMilliseconds_mono hjit)))
    (firstMatchGe_mono _ (by decide) (by decide) hul)

lemma gamingScore_mono (r₁ r₂ : SpeedTestResult)
    (hlat : r₁.latency ≤ r₂.latency) (hjit : r₁.jitter ≤ r₂.jitter)
    (hdl : r₂.downloadSpeed ≤ r₁.downloadSpeed) (hul : r₂.uploadSpeed ≤ r₁.uploadSpeed) :
    calculateGamingScore r₂ ≤ calculateGamingScore r₁ := by
  rw [calculateGamingScore_eq_spec, calculateGamingScore_eq_spec]
  dsimp only [gamingScoreSpec]
  exact add_le_add (add_le_add (add_le_add
    (firstMatchLe_anti _ (by decide) (by decide) (durationMilliseconds_mono hlat))
    (firstMatchLe_anti _ (by decide) (by decide) (durationMilliseconds_mono hjit)))
    (firstMatchGe_mono _ (by decide) (by decide) hdl))
    (firstMatchGe_mono _ (by decide) (by decide) hul)

lemma webchatScore_mono (r₁ r₂ : SpeedTestResult)
    (hlat : r₁.latency ≤ r₂.latency) (hjit : r₁.jitter ≤ r₂.jitter)
    (hdl : r₂.downloadSpeed ≤ r₁.downloadSpeed) (hul : r₂.uploadSpeed ≤ r₁.uploadSpeed) :
    calculateWebchatScore r₂ ≤ calculateWebchatScore r₁ := by
  rw [calculateWebchatScore_eq_spec, calculateWebchatScore_eq_spec]
  dsimp only [webchatScoreSpec]
  exact add_le_add (add_le_add (add_le_add
    (firstMatchLe_anti _ (by decide) (by decide) (durationMilliseconds_mono hlat))
    (firstMatchLe_anti _ (by decide) (by decide) (durationMilliseconds_mono hjit)))
    (firstMatchGe_mono _ (by decide) (by decide) hul))
    (firstMatchGe_mono _ (by decide) (by decide) hdl)

/-! ### Claim theorems -/

/-- C1: each of the three use-case Quality Scores equals the sum of four
independent contributions (download, latency, jitter, upload), each chosen by
a first-match-wins top-down scan of the use case's descending threshold table
from spec section 4.2, defaulting to 0 when no threshold matches. -/
theorem scores_are_table_scans (r : SpeedTestResult) :
    calculateStreamingScore r = streamingScoreSpec r ∧
    calculateGamingScore r = gamingScoreSpec r ∧
    calculateWebchatScore r = webchatScoreSpec r :=
  ⟨calculateStreamingScore_eq_spec r, calculateGamingScore_eq_spec r,
   calculateWebchatScore_eq_spec r⟩

/-- C2: `getQualityLabel` is a pure, total function with inclusive cut
points: score ≥ 80 yields "Great", 60..79 yields "Good", 40..59 yields
"Average", 20..39 yields "Poor" and score ≤ 19 yields "Bad". -/
theorem getQualityLabel_cut_points (score : Int) :
    (80 ≤ score → getQualityLabel score = "Great") ∧
    (60 ≤ score ∧ score ≤ 79 → getQualityLabel score = "Good") ∧
    (40 ≤ score ∧ score ≤ 59 → getQualityLabel score = "Average") ∧
    (20 ≤ score ∧ score ≤ 39 → getQualityLabel score = "Poor") ∧
    (score ≤ 19 → getQualityLabel score = "Bad") := by
  unfold getQualityLabel
  refine ⟨?_, ?_, ?_, ?_, ?_⟩ <;> intro h <;> split_ifs <;> first | rfl | omega

/-- Witness for C2 at the boundary scores 80, 79, 60 and 59. -/
theorem getQualityLabel_cut_points_witness :
    getQualityLabel 80 = "Great" ∧ getQualityLabel 79 = "Good" ∧
    getQualityLabel 60 = "Good" ∧ getQualityLabel 59 = "Average" :=
  ⟨(getQualityLabel_cut_points 80).1 (by decide),
   (getQualityLabel_cut_points 79).2.1 (by decide),
   (getQualityLabel_cut_points 60).2.1 (by decide),
   (getQualityLabel_cut_points 59).2.2.1 (by decide)⟩

/-- C3 counterexample: on the input download = 30 Mbps, upload = 10 Mbps,
latency = 15 ms, jitter = 3 ms, the claimed triple of scores and labels is
false, because the gaming score is not 70: latency 15 ms falls in the
"≤ 20 ms → 30 points" bucket, so the gaming score is 80, label "Great". -/
theorem specExample_claimed_scores_false :
    ¬ (calculateStreamingScore specExampleResult = 100 ∧
       (calculateNetworkQuality specExampleResult).streaming = "Great" ∧
       calculateGamingScore specExampleResult = 70 ∧
       (calculateNetworkQuality specExampleResult).gaming = "Good" ∧
       calculateWebchatScore specExampleResult = 100 ∧
       (calculateNetworkQuality specExampleResult).webchat = "Great") := by
  decide

/-- C3 amended: for download = 30 Mbps, upload = 10 Mbps, latency = 15 ms,
jitter = 3 ms, the streaming score is 100 ("Great"), the gaming score is 80
("Great"), and the webchat/RTC score is 100 ("Great"). -/
theorem specExample_scores :
    calculateStreamingScore specExampleResult = 100 ∧
    (calculateNetworkQuality specExampleResult).streaming = "Great" ∧
    calculateGamingScore specExampleResult = 80 ∧
    (calculateNetworkQuality specExampleResult).gaming = "Great" ∧
    calculateWebchatScore specExampleResult = 100 ∧
    (calculateNetworkQuality specExampleResult).webchat = "Great" := by
  decide

lemma avgLatencyOf_const (xs : List Int) (c : Int) (hne : xs ≠ [])
    (hc : ∀ x ∈ xs, x = c) : avgLatencyOf xs = c := by
  unfold avgLatencyOf
  rw [List.sum_eq_card_nsmul xs c hc, nsmul_eq_mul]
  exact Int.mul_tdiv_cancel_left c (by
    simpa using List.length_pos.mpr hne |>.ne')

lemma jitterValueOf_const (xs : List Int) (c : Int) (hne : xs ≠ [])
    (hc : ∀ x ∈ xs, x = c) : jitterValueOf xs = 0 := by
  have hvar : varianceOf xs = 0 := by
    unfold varianceOf
    refine List.sum_eq_zero fun y hy => ?_
    obtain ⟨x, hx, rfl⟩ := List.mem_map.mp hy
    rw [hc x hx, avgLatencyOf_const xs c hne hc]
    ring
  unfold jitterValueOf
  rw [hvar]
  simp

/-- C4: for every non-empty sample list, the computed jitter (the integer
square root of the mean squared deviation) is nonnegative, and is 0 whenever
all samples are equal; in particular five 10 ms samples (10,000,000 ns each)
give average latency 10 ms and jitter 0. -/
theorem jitter_nonneg_zero_on_equal (xs : List Int) (h : xs ≠ []) :
    0 ≤ jitterValueOf xs ∧
    (∀ c, (∀ x ∈ xs, x = c) → jitterValueOf xs = 0) ∧
    avgLatencyOf (List.replicate 5 10000000) = 10000000 ∧
    jitterValueOf (List.replicate 5 10000000) = 0 := by
  refine ⟨Int.natCast_nonneg _, fun c hc => jitterValueOf_const xs c h hc, ?_, ?_⟩
  · exact avgLatencyOf_const _ 10000000 (by decide) (by simp)
  · exact jitterValueOf_const _ 10000000 (by decide) (by simp)

/-- Witness for C4 at the sample list of five 10 ms pings. -/
theorem jitter_nonneg_zero_on_equal_witness :
    0 ≤ jitterValueOf (List.replicate 5 10000000) ∧
    (∀ c : Int, (∀ x ∈ List.replicate 5 10000000, x = c) →
      jitterValueOf (List.replicate 5 10000000) = 0) ∧
    avgLatencyOf (List.replicate 5 10000000) = 10000000 ∧
    jitterValueOf (List.replicate 5 10000000) = 0 :=
  jitter_nonneg_zero_on_equal (List.replicate 5 10000000) (by decide)

/-- C5: each use-case score is monotone — worsening exactly one metric
(raising latency or jitter, or lowering download or upload speed) while the
others stay fixed never increases any of the three scores. -/
theorem scores_monotone (r : SpeedTestResult) :
    (∀ l', r.latency < l' →
      calculateStreamingScore { r with latency := l' } ≤ calculateStreamingScore r ∧
      calculateGamingScore { r with latency := l' } ≤ calculateGamingScore r ∧
      calculateWebchatScore { r with latency := l' } ≤ calculateWebchatScore r) ∧
    (∀ j', r.jitter < j' →
      calculateStreamingScore { r with jitter := j' } ≤ calculateStreamingScore r ∧
      calculateGamingScore { r with jitter := j' } ≤ calculateGamingScore r ∧
      calculateWebchatScore { r with jitter := j' } ≤ calculateWebchatScore r) ∧
    (∀ d', d' < r.downloadSpeed →
      calculateStreamingScore { r with downloadSpeed := d' } ≤ calculateStreamingScore r ∧
      calculateGamingScore { r with downloadSpeed := d' } ≤ calculateGamingScore r ∧
      calculateWebchatScore { r with downloadSpeed := d' } ≤ calculateWebchatScore r) ∧
    (∀ u', u' < r.uploadSpeed →
      calculateStreamingScore { r with uploadSpeed := u' } ≤ calculateStreamingScore r ∧
      calculateGamingScore { r with uploadSpeed := u' } ≤ calculateGamingScore r ∧
      calculateWebchatScore { r with uploadSpeed := u' } ≤ calculateWebchatScore r) := by
  refine ⟨fun l' hl => ⟨?_, ?_, ?_⟩, fun j' hj => ⟨?_, ?_, ?_⟩,
    fun d' hd => ⟨?_, ?_, ?_⟩, fun u' hu => ⟨?_, ?_, ?_⟩⟩
  · exact streamingScore_mono r _ hl.le le_rfl le_rfl le_rfl
  · exact gamingScore_mono r _ hl.le le_rfl le_rfl le_rfl
  · exact webchatScore_mono r _ hl.le le_rfl le_rfl le_rfl
  · exact streamingScore_mono r _ le_rfl hj.le le_rfl le_rfl
  · exact gamingScore_mono r _ le_rfl hj.le le_rfl le_rfl
  · exact webchatScore_mono r _ le_rfl hj.le le_rfl le_rfl
  · exact streamingScore_mono r _ le_rfl le_rfl hd.le le_rfl
  · exact gamingScore_mono r _ le_rfl le_rfl hd.le le_rfl
  · exact webchatScore_mono r _ le_rfl le_rfl hd.le le_rfl
  · exact streamingScore_mono r _ le_rfl le_rfl le_rfl hu.le
  · exact gamingScore_mono r _ le_rfl le_rfl le_rfl hu.le
  · exact webchatScore_mono r _ le_rfl le_rfl le_rfl hu.le

/-- Witness for C5: worsening the spec example's latency from 15 ms to
200 ms does not increase any of the three scores. -/
theorem scores_monotone_witness :
    calculateStreamingScore { specExampleResult with latency := 200000000 } ≤
      calculateStreamingScore specExampleResult ∧
    calculateGamingScore { specExampleResult with latency := 200000000 } ≤
      calculateGamingScore specExampleResult ∧
    calculateWebchatScore { specExampleResult with latency := 200000000 } ≤
      calculateWebchatScore specExampleResult :=
  (scores_monotone specExampleResult).1 200000000 (by decide)

/-- C6: for every input, each of the three use-case Quality Scores is an
integer in the closed interval [0, 100]. -/
theorem scores_in_range (r : SpeedTestResult) :
    (0 ≤ calculateStreamingScore r ∧ calculateStreamingScore r ≤ 100) ∧
    (0 ≤ calculateGamingScore r ∧ calculateGamingScore r ≤ 100) ∧
    (0 ≤ calculateWebchatScore r ∧ calculateWebchatScore r ≤ 100) := by
  rw [calculateStreamingScore_eq_spec, calculateGamingScore_eq_spec,
    calculateWebchatScore_eq_spec]
  dsimp only [streamingScoreSpec, gamingScoreSpec, webchatScoreSpec]
  have bs1 := firstMatchGe_le_bound r.downloadSpeed [(25, 40), (10, 30), (5, 20), (2, 10)] 40 (by decide) (by decide)
  have bs2 := firstMatchLe_le_bound (durationMilliseconds r.latency) [(20, 30), (50, 20), (100, 10)] 30 (by decide) (by decide)
  have bs3 := firstMatchLe_le_bound (durationMilliseconds r.jitter) [(5, 20), (15, 10)] 20 (by decide) (by decide)
  have bs4 := firstMatchGe_le_bound r.uploadSpeed [(5, 10), (2, 5)] 10 (by decide) (by decide)
  have ns1 := firstMatchGe_nonneg r.downloadSpeed [(25, 40), (10, 30), (5, 20), (2, 10)] (by decide)
  have ns2 := firstMatchLe_nonneg (durationMilliseconds r.latency) [(20, 30), (50, 20), (100, 10)] (by decide)
  have ns3 := firstMatchLe_nonneg (durationMilliseconds r.jitter) [(5, 20), (15, 10)] (by decide)
  have ns4 := firstMatchGe_nonneg r.uploadSpeed [(5, 10), (2, 5)] (by decide)
  have bg1 := firstMatchLe_le_bound (durationMilliseconds r.latency) [(10, 40), (20, 30), (50, 20), (100, 10)] 40 (by decide) (by decide)
  have bg2 := firstMatchLe_le_bound (durationMilliseconds r.jitter) [(2, 30), (5, 20), (10, 10)] 30 (by decide) (by decide)
  have bg3 := firstMatchGe_le_bound r.downloadSpeed [(10, 20), (5, 15), (2, 10)] 20 (by decide) (by decide)
  have ng1 := firstMatchLe_nonneg (durationMilliseconds r.latency) [(10, 40), (20, 30), (50, 20), (100, 10)] (by decide)
  have ng2 := firstMatchLe_nonneg (durationMilliseconds r.jitter) [(2, 30), (5, 20), (10, 10)] (by decide)
  have ng3 := firstMatchGe_nonneg r.downloadSpeed [(10, 20), (5, 15), (2, 10)] (by decide)
  have bw2 := firstMatchLe_le_bound (durationMilliseconds r.jitter) [(5, 25), (15, 15), (30, 5)] 25 (by decide) (by decide)
  have bw3 := firstMatchGe_le_bound r.uploadSpeed [(5, 25), (2, 15), (1, 10)] 25 (by decide) (by decide)
  have bw4 := firstMatchGe_le_bound r.downloadSpeed [(5, 20), (2, 10)] 20 (by decide) (by decide)
  have nw2 := firstMatchLe_nonneg (durationMilliseconds r.jitter) [(5, 25), (15, 15), (30, 5)] (by decide)
  have nw3 := firstMatchGe_nonneg r.uploadSpeed [(5, 25), (2, 15), (1, 10)] (by decide)
  have nw4 := firstMatchGe_nonneg r.downloadSpeed [(5, 20), (2, 10)] (by decide)
  omega

/-- C7: whenever a phase of the speed test fails, `RunSpeedTest` returns an
error naming the failed phase together with a nil Result and a nil
Assessment, and the remaining phases are not executed (the executed-phase
trace stops at the failing phase). -/
theorem runSpeedTest_failure_paths (env : Env) :
    ((runSpeedTest env).err.isSome →
      (runSpeedTest env).result = none ∧ (runSpeedTest env).quality = none) ∧
    (∀ e, env.fetchServers = .error e →
      runSpeedTest env =
        { result := none, quality := none
          err := some ("failed to fetch server list: " ++ e)
          executed := [Phase.fetchServers] }) ∧
    (∀ e, env.fetchServers = .ok () → env.findServer = .error e →
      runSpeedTest env =
        { result := none, quality := none
          err := some ("failed to find servers: " ++ e)
          executed := [Phase.fetchServers, Phase.findServer] }) ∧
    (env.fetchServers = .ok () → env.findServer = .ok [] →
      runSpeedTest env =
        { result := none, quality := none
          err := some "no servers found"
          executed := [Phase.fetchServers, Phase.findServer] }) ∧
    (∀ e s ts, env.fetchServers = .ok () → env.findServer = .ok (s :: ts) →
      env.tcpPing = .error e →
      runSpeedTest env =
        { result := none, quality := none
          err := some ("latency test failed: " ++ e)
          executed := [Phase.fetchServers, Phase.findServer, Phase.latencyTest] }) ∧
    (∀ e s ts ls, env.fetchServers = .ok () → env.findServer = .ok (s :: ts) →
      env.tcpPing = .ok ls → env.downloadTest = .error e →
      runSpeedTest env =
        { result := none, quality := none
          err := some ("download test failed: " ++ e)
          executed := [Phase.fetchServers, Phase.findServer, Phase.latencyTest,
            Phase.downloadTest] }) ∧
    (∀ e s ts ls dl, env.fetchServers = .ok () → env.findServer = .ok (s :: ts) →
      env.tcpPing = .ok ls → env.downloadTest = .ok dl → env.uploadTest = .error e →
      runSpeedTest env =
        { result := none, quality := none
          err := some ("upload test failed: " ++ e)
          executed := [Phase.fetchServers, Phase.findServer, Phase.latencyTest,
            Phase.downloadTest, Phase.uploadTest] }) := by
  obtain ⟨fs, fd, tp, dt, ut⟩ := env
  refine ⟨?_, ?_, ?_, ?_, ?_, ?_, ?_⟩
  · rcases fs with e | u
    · simp [runSpeedTest]
    · rcases fd with e | l
      · simp [runSpeedTest]
      · rcases l with _ | ⟨s, ts⟩
        · simp [runSpeedTest]
        · rcases tp with e | ls
          · simp [runSpeedTest]
          · rcases dt with e | dl
            · simp [runSpeedTest]
            · rcases ut with e | ul
              · simp [runSpeedTest]
              · simp [runSpeedTest]
  · intro e he
    cases he
    rfl
  · intro e h1 h2
    cases h1
    cases h2
    rfl
  · intro h1 h2
    cases h1
    cases h2
    rfl
  · intro e s ts h1 h2 h3
    cases h1
    cases h2
    cases h3
    rfl
  · intro e s ts ls h1 h2 h3 h4
    cases h1
    cases h2
    cases h3
    cases h4
    rfl
  · intro e s ts ls dl h1 h2 h3 h4 h5
    cases h1
    cases h2
    cases h3
    cases h4
    cases h5
    rfl

/-- An environment in which the server-list fetch itself fails. -/
def envFetchFail : Env :=
  { fetchServers := .error "network unreachable"
    findServer := .ok []
    tcpPing := .ok []
    downloadTest := .ok 0
    uploadTest := .ok 0 }

/-- Witness for C7: a failing server-list fetch yields the fetch error, nil
Result and Assessment, and only the fetch phase executed. -/
theorem runSpeedTest_failure_paths_witness :
    runSpeedTest envFetchFail =
      { result := none, quality := none
        err := some ("failed to fetch server list: " ++ "network unreachable")
        executed := [Phase.fetchServers] } :=
  (runSpeedTest_failure_paths envFetchFail).2.1 "network unreachable" rfl

/-- C8: on every exit path of `WithSpinner` on which the call returns, the
render loop has stopped and the line-clear has been printed before the call
returns, no spinner frame is printed after the clear, and the returned error
is exactly the action's error: every complete execution's terminal trace is
some spinner frames, then the clear, then the return of the action's error,
with the render goroutine exited. -/
theorem withSpinner_clean_exit (aerr : Option String) (tr : List SpinEv) (s : SpinState)
    (hrun : SpinRun aerr spinInit tr s) (hfin : s.mpc = .finished) :
    s.rpc = .exited ∧
    ∃ k, tr = List.replicate k SpinEv.frame ++ [SpinEv.clear, SpinEv.ret aerr] := by
  have h := spinInv_run (spinInv_init aerr) hrun
  obtain ⟨hmain, _⟩ := h
  rw [hfin] at hmain
  simp only [mainInv] at hmain
  simpa using hmain

/-- The state in which a `WithSpinner` call has fully returned. -/
def spinFinal : SpinState :=
  { mpc := .finished, rpc := .exited, workerDone := true, errBuf := none
    errVar := some none }

/-- Witness for C8: a concrete complete execution of the harness (for a
successful action) whose terminal trace is one frame, then the clear, then
the return of `nil`. -/
theorem withSpinner_clean_exit_witness :
    spinFinal.rpc = RenderPc.exited ∧
    ∃ k, [SpinEv.frame, SpinEv.clear, SpinEv.ret none] =
      List.replicate k SpinEv.frame ++ [SpinEv.clear, SpinEv.ret none] := by
  refine withSpinner_clean_exit none
    [SpinEv.frame, SpinEv.clear, SpinEv.ret none] spinFinal ?_ rfl
  refine SpinRun.step (SpinStep.renderFrame spinInit rfl) ?_
  refine SpinRun.step (SpinStep.workerSend _ rfl) ?_
  refine SpinRun.step (SpinStep.recvErr _ none rfl rfl) ?_
  refine SpinRun.step (SpinStep.stopRendezvous _ rfl rfl) ?_
  refine SpinRun.step (SpinStep.doneRendezvous _ rfl rfl) ?_
  refine SpinRun.step (SpinStep.clearLine _ rfl) ?_
  exact SpinRun.step (SpinStep.retStep _ none rfl rfl) (SpinRun.refl _)

/-- C9: the latency phase's unit heuristic — with `m` the truncating integer
mean of the raw samples, the stored latency is `m` nanoseconds and the stored
jitter the computed jitter value in nanoseconds when `m > 1,000,000`, and
otherwise both are stored as microseconds (the raw value times 1000
nanoseconds); so when raw nanosecond samples have mean at most 1,000,000 the
stored latency is 1000 times the true mean. -/
theorem latency_unit_heuristic (latencies : List Int) (server : Server)
    (h : latencies ≠ []) :
    (1000000 < avgLatencyOf latencies →
      (latencyPhase latencies server).latency = avgLatencyOf latencies ∧
      (latencyPhase latencies server).jitter = jitterValueOf latencies) ∧
    (avgLatencyOf latencies ≤ 1000000 →
      (latencyPhase latencies server).latency = avgLatencyOf latencies * 1000 ∧
      (latencyPhase latencies server).jitter = jitterValueOf latencies * 1000) := by
  have hlen : 0 < latencies.length := List.length_pos.mpr h
  unfold latencyPhase
  rw [if_pos hlen]
  dsimp only
  split_ifs with hc
  · exact ⟨fun _ => ⟨rfl, rfl⟩, fun h' => absurd hc (by omega)⟩
  · exact ⟨fun h' => absurd h' hc, fun _ => ⟨rfl, rfl⟩⟩

/-- A zero-initialized server, as `speedtest.FetchServers` produces (its
latency and jitter fields hold the Go zero value until a test fills them). -/
def zeroServer : Server :=
  { name := "srv", country := "AU", latency := 0, jitter := 0, dlSpeed := 0, ulSpeed := 0 }

/-- Witness for C9: two raw samples of 1000 and 3000 ns have truncated mean
2000 ≤ 1,000,000, so the microsecond branch stores latency 2000 × 1000 ns. -/
theorem latency_unit_heuristic_witness :
    (1000000 < avgLatencyOf [1000, 3000] →
      (latencyPhase [1000, 3000] zeroServer).latency = avgLatencyOf [1000, 3000] ∧
      (latencyPhase [1000, 3000] zeroServer).jitter = jitterValueOf [1000, 3000]) ∧
    (avgLatencyOf [1000, 3000] ≤ 1000000 →
      (latencyPhase [1000, 3000] zeroServer).latency = avgLatencyOf [1000, 3000] * 1000 ∧
      (latencyPhase [1000, 3000] zeroServer).jitter = jitterValueOf [1000, 3000] * 1000) :=
  latency_unit_heuristic [1000, 3000] zeroServer (by decide)

/-- C10: when the round-trip probe succeeds with an empty sample list, the
latency phase leaves the server untouched and `RunSpeedTest` proceeds to the
download phase without error; any returned Result carries the server's
untouched latency and jitter fields — 0 and 0 for a zero-initialized
server. -/
theorem empty_ping_samples (env : Env) (server : Server) (rest : List Server)
    (hfetch : env.fetchServers = .ok ()) (hfind : env.findServer = .ok (server :: rest))
    (hping : env.tcpPing = .ok []) :
    latencyPhase [] server = server ∧
    Phase.downloadTest ∈ (runSpeedTest env).executed ∧
    (∀ res, (runSpeedTest env).result = some res →
      res.latency = server.latency ∧ res.jitter = server.jitter) ∧
    (server.latency = 0 → server.jitter = 0 →
      ∀ res, (runSpeedTest env).result = some res →
        res.latency = 0 ∧ res.jitter = 0) := by
  obtain ⟨fs, fd, tp, dt, ut⟩ := env
  cases hfetch
  cases hfind
  cases hping
  refine ⟨rfl, ?_, ?_, ?_⟩
  · rcases dt with e | dl
    · simp [runSpeedTest]
    · rcases ut with e | ul <;> simp [runSpeedTest]
  · rcases dt with e | dl
    · simp [runSpeedTest]
    · rcases ut with e | ul
      · simp [runSpeedTest]
      · intro res hres
        simp only [runSpeedTest] at hres
        cases Option.some_inj.mp hres
        exact ⟨rfl, rfl⟩
  · intro hl hj res hres
    rcases dt with e | dl
    · simp [runSpeedTest] at hres
    · rcases ut with e | ul
      · simp [runSpeedTest] at hres
      · simp only [runSpeedTest] at hres
        cases Option.some_inj.mp hres
        exact ⟨hl, hj⟩

/-- An environment whose ping call succeeds with an empty sample list and
whose remaining phases all succeed. -/
def envEmptyPing : Env :=
  { fetchServers := .ok ()
    findServer := .ok [zeroServer]
    tcpPing := .ok []
    downloadTest := .ok 42
    uploadTest := .ok 17 }

/-- Witness for C10 on a concrete environment with a zero-initialized
server. -/
theorem empty_ping_samples_witness :
    latencyPhase [] zeroServer = zeroServer ∧
    Phase.downloadTest ∈ (runSpeedTest envEmptyPing).executed ∧
    (∀ res, (runSpeedTest envEmptyPing).result = some res →
      res.latency = zeroServer.latency ∧ res.jitter = zeroServer.jitter) ∧
    (zeroServer.latency = 0 → zeroServer.jitter = 0 →
      ∀ res, (runSpeedTest envEmptyPing).result = some res →
        res.latency = 0 ∧ res.jitter = 0) :=
  empty_ping_samples envEmptyPing zeroServer [] rfl rfl rfl

end NomadCli
